import Mathlib

/-!
Shallow embedding of the TSL2561 luminosity-sensor driver (tsl2561.py) and
verification of its specification.

The driver talks to the sensor over an I2C bus.  The bus transport is an
external collaborator; it is modelled here as a record of oracles: whether
the presence probe acknowledges, whether a given send succeeds, and which
byte a one-byte receive returns after a given command buffer was sent.
Driver methods are modelled as explicit state-passing functions returning
the Python result (normal return or raised error), the driver object's
state after the call (Python object mutations persist even when an
exception propagates), and the trace of bus operations attempted.

Floating-point arithmetic of the source is modelled over the exact
rationals; the host library function math.pow is an external collaborator
and is passed in as an abstract function argument.
-/

/-- Error taxonomy of the specification.  The source raises ValueError for
malformed arguments (InvalidArgument), a generic Exception when the presence
probe fails (DeviceNotFound), and is intended to raise on a failed power-up
acknowledgment (DeviceCommunicationError / startupFailed); transportError
stands for any error surfaced by the underlying bus transport; attributeError
models Python's AttributeError on access to a never-assigned instance
attribute. -/
inductive PyError where
  | invalidArgument
  | deviceNotFound
  | startupFailed
  | transportError
  | attributeError
deriving DecidableEq, Repr

/-- One bus operation attempted by the driver: a write of a byte buffer, or a
read of a byte count. -/
inductive BusOp where
  | send (buf : List Nat)
  | recv (n : Nat)
deriving DecidableEq, Repr

/-- Model of the external I2C bus transport.  isReady is the presence probe
per address; sendOK tells whether a given write succeeds; recv1 gives the
byte a one-byte read returns after the given buffer was the last one sent
(the device answers reads out of the register selected by the last command).
A send of a single integer in the source sends that one byte and is modelled
as the singleton buffer. -/
structure I2CBus where
  isReady : Nat → Bool
  sendOK : List Nat → Bool
  recv1 : List Nat → Nat

/-- The argument passed for the i2c parameter of the constructor: absent
(None), an object of the wrong class, or an actual I2C bus handle. -/
inductive I2CHandle where
  | noHandle
  | wrongType
  | i2c (bus : I2CBus)

/-- Driver instance state: the device address and the cached gain and timing
configuration.  The caches are Option because the constructor never assigns
self._gain or self._timing; accessing them before the first set_timing_gain
raises AttributeError in Python, modelled by the none case. -/
structure TSL2561 where
  addr : Nat
  gain : Option Bool
  timing : Option Nat
deriving DecidableEq, Repr

/-- Timing mode T_FAST of the source. -/
def T_FAST : Nat := 0b00

/-- Timing mode T_MEDIUM of the source. -/
def T_MEDIUM : Nat := 0b01

/-- Timing mode T_SLOW of the source. -/
def T_SLOW : Nat := 0b10

/-- Timing mode T_MANUAL of the source. -/
def T_MANUAL : Nat := 0b11

/-- Python equality between a bytes/bytearray object and an int.  In Python
a bytes object never compares equal to an int (neither type implements the
cross-type comparison, so == falls back to identity and yields False); the
source expression self._recv(1) == 0b11 therefore always evaluates to
False.  Modelled faithfully as the constant false. -/
def pyBytesIntEq (b : List Nat) (n : Nat) : Bool := false

/-- Model of set_power_up (tsl2561.py lines 48-68).  Builds the buffer
[0x80, 0x03] when enabling and [0x80, 0x00] when disabling and sends it.
When enabling, the source then evaluates self._recv(1) == 0b11 (a bytes-int
comparison, hence always False) and would raise only if that held.  The
boolean class check on the argument maps to static typing.  Returns the
Python result, the driver state after the call, and the bus-operation
trace. -/
def set_power_up (bus : I2CBus) (st : TSL2561) (s : Bool) :
    Except PyError Unit × TSL2561 × List BusOp :=
  let b : List Nat := [0b10000000, if s then 0b11 else 0]
  if bus.sendOK b then
    if s then
      if pyBytesIntEq [bus.recv1 b] 0b11 then
        (.error .startupFailed, st, [.send b, .recv 1])
      else
        (.ok (), st, [.send b, .recv 1])
    else
      (.ok (), st, [.send b])
  else
    (.error .transportError, st, [.send b])

/-- Model of set_timing_gain (tsl2561.py lines 70-92).  Validates the timing
argument against the four timing modes (ValueError, i.e. InvalidArgument,
otherwise; the boolean class checks on gain and manual_start map to static
typing).  Builds the buffer [0x81, gain<<4 | manual_start<<3 | timing],
assigns the cached self._gain and self._timing, and only then sends the
buffer: the cache mutation precedes the bus write in the source. -/
def set_timing_gain (bus : I2CBus) (st : TSL2561) (timing : Nat)
    (gain manual_start : Bool) :
    Except PyError Unit × TSL2561 × List BusOp :=
  if timing ∈ [T_FAST, T_MEDIUM, T_SLOW, T_MANUAL] then
    let b : List Nat :=
      [0b10000001, (gain.toNat <<< 4) ||| (manual_start.toNat <<< 3) ||| timing]
    let st1 : TSL2561 := { st with gain := some gain, timing := some timing }
    if bus.sendOK b then
      (.ok (), st1, [.send b])
    else
      (.error .transportError, st1, [.send b])
  else
    (.error .invalidArgument, st, [])

/-- Model of get_id (tsl2561.py lines 94-105).  Sends the command buffer
[0x8A], reads one byte, and splits it into the part number (high nibble) and
revision number (low nibble). -/
def get_id (bus : I2CBus) (st : TSL2561) :
    Except PyError (Nat × Nat) × TSL2561 × List BusOp :=
  let b : List Nat := [0b10001010]
  if bus.sendOK b then
    let id_reg := bus.recv1 b
    (.ok (id_reg >>> 4, id_reg &&& 0b1111), st, [.send b, .recv 1])
  else
    (.error .transportError, st, [.send b])

/-- Model of _raw_lumi (tsl2561.py lines 107-124).  Sends the four single
byte commands 0x8C, 0x8D, 0x8E, 0x8F, each followed by a one-byte read,
reconstructs each channel as high*256 + low, then accesses self._gain
(AttributeError if it was never assigned) and left-shifts both channels by
4 bits when gain is off.  A failed send raises immediately, truncating the
trace. -/
def _raw_lumi (bus : I2CBus) (st : TSL2561) :
    Except PyError (Nat × Nat) × TSL2561 × List BusOp :=
  if bus.sendOK [0b10001100] then
    let c0_l := bus.recv1 [0b10001100]
    if bus.sendOK [0b10001101] then
      let c0_h := bus.recv1 [0b10001101]
      if bus.sendOK [0b10001110] then
        let c1_l := bus.recv1 [0b10001110]
        if bus.sendOK [0b10001111] then
          let c1_h := bus.recv1 [0b10001111]
          let c0 := c0_h * 256 + c0_l
          let c1 := c1_h * 256 + c1_l
          let tr : List BusOp :=
            [.send [0b10001100], .recv 1, .send [0b10001101], .recv 1,
             .send [0b10001110], .recv 1, .send [0b10001111], .recv 1]
          match st.gain with
          | none => (.error .attributeError, st, tr)
          | some g =>
            if !g then
              (.ok (c0 <<< 4, c1 <<< 4), st, tr)
            else
              (.ok (c0, c1), st, tr)
        else
          (.error .transportError, st,
           [.send [0b10001100], .recv 1, .send [0b10001101], .recv 1,
            .send [0b10001110], .recv 1, .send [0b10001111]])
      else
        (.error .transportError, st,
         [.send [0b10001100], .recv 1, .send [0b10001101], .recv 1,
          .send [0b10001110]])
    else
      (.error .transportError, st,
       [.send [0b10001100], .recv 1, .send [0b10001101]])
  else
    (.error .transportError, st, [.send [0b10001100]])

/-- The luminosity computation of get_lumi (tsl2561.py lines 130-145) on a
raw channel pair, over the exact rationals.  pw models the host library
function math.pow: pw c e stands for pow(c, e).  l starts at 0; when
raw[0] is nonzero the ratio c = raw[1] / raw[0] is formed and, when it is
positive, one of the four formulas is selected by inclusive upper bounds on
c, else l keeps the value 0. -/
def lumi_calc (pw : ℚ → ℚ → ℚ) (r0 r1 : Nat) : ℚ :=
  if r0 ≠ 0 then
    let c : ℚ := (r1 : ℚ) / (r0 : ℚ)
    if c > 0 then
      if c ≤ 0.5 then
        0.0304 * (r0 : ℚ) - 0.062 * (r0 : ℚ) * pw c 1.4
      else if c ≤ 0.61 then
        0.0224 * (r0 : ℚ) - 0.031 * (r1 : ℚ)
      else if c ≤ 0.8 then
        0.0128 * (r0 : ℚ) - 0.0153 * (r1 : ℚ)
      else if c ≤ 1.3 then
        0.00146 * (r0 : ℚ) - 0.00112 * (r1 : ℚ)
      else
        0
    else
      0
  else
    0

/-- Which path of the conditional cascade of get_lumi computes the result:
1 to 4 for the four formula branches, 0 for the sentinel path on which the
initial l = 0 is returned unchanged (channel0 zero, non-positive ratio, or
ratio above 1.3).  Mirrors the conditional structure of lumi_calc. -/
def lumi_branch (r0 r1 : Nat) : Nat :=
  if r0 ≠ 0 then
    let c : ℚ := (r1 : ℚ) / (r0 : ℚ)
    if c > 0 then
      if c ≤ 0.5 then 1
      else if c ≤ 0.61 then 2
      else if c ≤ 0.8 then 3
      else if c ≤ 1.3 then 4
      else 0
    else
      0
  else
    0

/-- Model of get_lumi (tsl2561.py lines 126-145): reads the raw channel pair
and applies the luminosity computation to it; an error from the raw read
propagates. -/
def get_lumi (pw : ℚ → ℚ → ℚ) (bus : I2CBus) (st : TSL2561) :
    Except PyError ℚ × TSL2561 × List BusOp :=
  match _raw_lumi bus st with
  | (Except.error e, st1, tr) => (.error e, st1, tr)
  | (Except.ok raw, st1, tr) => (.ok (lumi_calc pw raw.1 raw.2), st1, tr)

/-- Model of the constructor __init__ (tsl2561.py lines 18-32).  Validates
the i2c argument (ValueError, i.e. InvalidArgument, when absent or of the
wrong class), stores the address, probes presence with is_ready (a generic
exception, i.e. DeviceNotFound, when not acknowledged), then performs
set_power_up(True) followed by set_power_up(False).  The constructor never
assigns self._gain or self._timing. -/
def tsl2561_init (hdl : I2CHandle) (addr : Nat) :
    Except PyError TSL2561 × List BusOp :=
  match hdl with
  | .noHandle => (.error .invalidArgument, [])
  | .wrongType => (.error .invalidArgument, [])
  | .i2c bus =>
    if bus.isReady addr then
      let st0 : TSL2561 := { addr := addr, gain := none, timing := none }
      match set_power_up bus st0 true with
      | (Except.error e, _, tr1) => (.error e, tr1)
      | (Except.ok _, st1, tr1) =>
        match set_power_up bus st1 false with
        | (Except.error e, _, tr2) => (.error e, tr1 ++ tr2)
        | (Except.ok _, st2, tr2) => (.ok st2, tr1 ++ tr2)
    else
      (.error .deviceNotFound, [])

/-- set_power_up returns the driver state unchanged in every case: the
method assigns no instance attribute. -/
theorem set_power_up_state (bus : I2CBus) (st : TSL2561) (s : Bool) :
    (set_power_up bus st s).2.1 = st := by
  unfold set_power_up
  dsimp only
  split_ifs <;> rfl

/-- A bus on which every operation succeeds and every read returns 0:
the device never answers 0x03, i.e. it never acknowledges a power-up. -/
def busNoAck : I2CBus :=
  { isReady := fun _ => true, sendOK := fun _ => true, recv1 := fun _ => 0 }

/-- A bus whose ID register reads back 0xA5. -/
def busID : I2CBus :=
  { isReady := fun _ => true, sendOK := fun _ => true, recv1 := fun _ => 0xA5 }

/-- A bus that acknowledges presence but on which every write fails. -/
def busDead : I2CBus :=
  { isReady := fun _ => true, sendOK := fun _ => false, recv1 := fun _ => 0 }

/-- A bus whose channel registers read 0x34/0x12 (channel 0 low/high) and
0x01/0x02 (channel 1 low/high). -/
def busRaw : I2CBus :=
  { isReady := fun _ => true, sendOK := fun _ => true,
    recv1 := fun b =>
      if b = [0b10001100] then 0x34
      else if b = [0b10001101] then 0x12
      else if b = [0b10001110] then 0x01
      else 0x02 }

/-- A driver state with no cached configuration, as left by the
constructor. -/
def stNone : TSL2561 := { addr := 0x39, gain := none, timing := none }

/-- A driver state with gain cached off and timing cached T_FAST. -/
def stCfg : TSL2561 := { addr := 0x39, gain := some false, timing := some T_FAST }

/-- A driver state with gain cached off and timing cached T_SLOW. -/
def stGainOff : TSL2561 := { addr := 0x39, gain := some false, timing := some T_SLOW }

/-- Claim C9: set_power_up never mutates the driver's cached state: after
any call (enabling or disabling, succeeding or failing) the cached
gain_enabled and timing_mode fields and the device address are exactly what
they were before the call. -/
theorem claim9_set_power_up_frame (bus : I2CBus) (st : TSL2561) (s : Bool) :
    (set_power_up bus st s).2.1.gain = st.gain ∧
    (set_power_up bus st s).2.1.timing = st.timing ∧
    (set_power_up bus st s).2.1.addr = st.addr := by
  rw [set_power_up_state]
  exact ⟨rfl, rfl, rfl⟩

/-- Claim C7: get_id writes the command byte 0x8A, reads exactly one byte,
and returns part_number = byte >> 4 and revision_number = byte &&& 0x0F; in
particular the register byte 0xA5 decodes to part number 10 and revision
number 5. -/
theorem claim7_get_id (bus : I2CBus) (st : TSL2561)
    (h : bus.sendOK [0x8A] = true) :
    get_id bus st =
      (.ok (bus.recv1 [0x8A] >>> 4, bus.recv1 [0x8A] &&& 0x0F), st,
       [.send [0x8A], .recv 1]) ∧
    ((0xA5 : Nat) >>> 4 = 10 ∧ (0xA5 : Nat) &&& 0x0F = 5) := by
  constructor
  · simp [get_id, h]
  · exact ⟨by decide, by decide⟩

/-- Witness for claim C7 on a device whose ID register holds 0xA5. -/
theorem claim7_get_id_witness :
    get_id busID stNone = (.ok (10, 5), stNone, [.send [0x8A], .recv 1]) :=
  ((claim7_get_id busID stNone rfl).1).trans rfl

/-- Claim C5: for every timing mode among T_FAST, T_MEDIUM, T_SLOW, T_MANUAL
(whose codes are 0, 1, 2, 3) and all gain/manual_start booleans,
set_timing_gain writes command byte 0x81 followed by the data byte
(gain<<4) ||| (manual_start<<3) ||| timing; for any timing value outside
that set it fails with InvalidArgument and writes nothing. -/
theorem claim5_set_timing_gain_encoding (bus : I2CBus) (st : TSL2561)
    (timing : Nat) (g ms : Bool) :
    (T_FAST = 0 ∧ T_MEDIUM = 1 ∧ T_SLOW = 2 ∧ T_MANUAL = 3) ∧
    (timing ∈ [T_FAST, T_MEDIUM, T_SLOW, T_MANUAL] →
      (set_timing_gain bus st timing g ms).2.2 =
        [.send [0x81, (g.toNat <<< 4) ||| (ms.toNat <<< 3) ||| timing]]) ∧
    (timing ∉ [T_FAST, T_MEDIUM, T_SLOW, T_MANUAL] →
      (set_timing_gain bus st timing g ms).1 = .error .invalidArgument ∧
      (set_timing_gain bus st timing g ms).2.2 = []) := by
  refine ⟨⟨rfl, rfl, rfl, rfl⟩, fun hmem => ?_, fun hmem => ?_⟩
  · simp only [set_timing_gain, if_pos hmem]
    split_ifs <;> rfl
  · simp [set_timing_gain, hmem]

/-- Witness for claim C5: timing T_MEDIUM with gain on and manual start off
packs the data byte 1<<4 ||| 0<<3 ||| 1 = 17. -/
theorem claim5_encoding_witness :
    (set_timing_gain busNoAck stNone T_MEDIUM true false).2.2 =
      [.send [0x81, 17]] :=
  ((claim5_set_timing_gain_encoding busNoAck stNone T_MEDIUM true
      false).2.1 (by decide)).trans (by decide)

/-- Claim C2 concerns set_power_up's readback verification.  The source
docstring states the sensor must actively acknowledge the power-up command
so that communication can be checked, but the check compares the received
bytes object against the int 0b11 (always False in Python) and, moreover,
raises on equality rather than on mismatch, so the failure branch is
unreachable: here a device whose readback byte is 0x00 (no acknowledgment)
still makes set_power_up return normally, with the buffer [0x80, 0x03]
written and one byte read. -/
theorem claim2_power_up_readback_eval :
    busNoAck.recv1 [0x80, 0x03] = 0 ∧
    set_power_up busNoAck stCfg true =
      (.ok (), stCfg, [.send [0x80, 0x03], .recv 1]) :=
  ⟨rfl, rfl⟩

/-- Counterexample to claim C3 as stated: on a bus whose writes fail,
set_timing_gain returns the transport error, yet the cached gain field has
changed from some false to some true — the cache is not left unchanged on a
failed write. -/
theorem claim3_counterexample :
    (set_timing_gain busDead stCfg T_SLOW true true).1 =
      .error .transportError ∧
    stCfg.gain = some false ∧
    (set_timing_gain busDead stCfg T_SLOW true true).2.1.gain = some true := by
  exact ⟨rfl, rfl, rfl⟩

/-- Claim C3 amended: for every call with a valid timing mode the cached
gain_enabled and timing_mode fields are assigned the new values before the
bus write is attempted, so they hold the new values whether or not the
write succeeds; only the InvalidArgument validation failure leaves the
cache unchanged. -/
theorem claim3_cache_update (bus : I2CBus) (st : TSL2561) (t : Nat)
    (g ms : Bool) :
    (t ∈ [T_FAST, T_MEDIUM, T_SLOW, T_MANUAL] →
      (set_timing_gain bus st t g ms).2.1 =
        { st with gain := some g, timing := some t }) ∧
    (t ∉ [T_FAST, T_MEDIUM, T_SLOW, T_MANUAL] →
      (set_timing_gain bus st t g ms).2.1 = st) := by
  refine ⟨fun hmem => ?_, fun hmem => ?_⟩
  · simp only [set_timing_gain, if_pos hmem]
    split_ifs <;> rfl
  · simp only [set_timing_gain, if_neg hmem]

/-- Witness for the amended claim C3, on the same failing bus as the
counterexample: the cache holds the new values although the write failed. -/
theorem claim3_cache_update_witness :
    (set_timing_gain busDead stCfg T_SLOW true true).2.1 =
      { stCfg with gain := some true, timing := some T_SLOW } :=
  (claim3_cache_update busDead stCfg T_SLOW true true).1 (by decide)

/-- Claim C4: _raw_lumi reconstructs each 16-bit channel from its byte pair
as high*256 + low, and when the cached gain is off both channels are
left-shifted by 4 bits, i.e. exactly 16 times the unshifted reconstruction,
while with gain on they are returned unshifted. -/
theorem claim4_raw_reconstruction (bus : I2CBus) (st : TSL2561) (g : Bool)
    (hg : st.gain = some g)
    (h1 : bus.sendOK [0x8C] = true) (h2 : bus.sendOK [0x8D] = true)
    (h3 : bus.sendOK [0x8E] = true) (h4 : bus.sendOK [0x8F] = true) :
    (_raw_lumi bus st).1 =
      if g then
        .ok (bus.recv1 [0x8D] * 256 + bus.recv1 [0x8C],
             bus.recv1 [0x8F] * 256 + bus.recv1 [0x8E])
      else
        .ok ((bus.recv1 [0x8D] * 256 + bus.recv1 [0x8C]) * 16,
             (bus.recv1 [0x8F] * 256 + bus.recv1 [0x8E]) * 16) := by
  simp only [_raw_lumi, h1, h2, h3, h4, hg, if_true]
  cases g with
  | false => simp [Nat.shiftLeft_eq]
  | true => simp

/-- Witness for claim C4: bytes low 0x34, high 0x12 reconstruct channel 0 as
0x12*256 + 0x34 = 4660 and, with gain cached off, the returned value is
4660 * 16 = 74560; channel 1 likewise gives (2*256 + 1) * 16 = 8208. -/
theorem claim4_raw_reconstruction_witness :
    (_raw_lumi busRaw stGainOff).1 = .ok (74560, 8208) :=
  (claim4_raw_reconstruction busRaw stGainOff false rfl rfl rfl rfl
      rfl).trans rfl

/-- Claim C8: construction fails with InvalidArgument when the bus handle is
absent or of the wrong type, fails with DeviceNotFound when the presence
probe on the given address returns false, and otherwise (writes succeeding)
performs a power-up immediately followed by a power-down: the trace is the
power-on buffer [0x80, 0x03], the one-byte acknowledgment read, then the
power-off buffer [0x80, 0x00], leaving the device powered down. -/
theorem claim8_construction (bus : I2CBus) (addr : Nat) :
    (tsl2561_init .noHandle addr).1 = .error .invalidArgument ∧
    (tsl2561_init .wrongType addr).1 = .error .invalidArgument ∧
    (bus.isReady addr = false →
      (tsl2561_init (.i2c bus) addr).1 = .error .deviceNotFound) ∧
    (bus.isReady addr = true →
      bus.sendOK [0x80, 0x03] = true → bus.sendOK [0x80, 0x00] = true →
      tsl2561_init (.i2c bus) addr =
        (.ok { addr := addr, gain := none, timing := none },
         [.send [0x80, 0x03], .recv 1, .send [0x80, 0x00]])) := by
  refine ⟨rfl, rfl, fun h => ?_, fun h hs1 hs2 => ?_⟩
  · simp [tsl2561_init, h]
  · simp [tsl2561_init, h, set_power_up, pyBytesIntEq, hs1, hs2]

/-- Witness for claim C8: on a bus that acknowledges presence and accepts
all writes, construction at the default address 0x39 succeeds with both
cached configuration fields unset and exactly the power-up/power-down
exchange on the bus. -/
theorem claim8_construction_witness :
    tsl2561_init (.i2c busNoAck) 0x39 =
      (.ok { addr := 0x39, gain := none, timing := none },
       [.send [0x80, 0x03], .recv 1, .send [0x80, 0x00]]) :=
  (claim8_construction busNoAck 0x39).2.2.2 rfl rfl rfl

/-- Claim C10: the constructor never assigns the cached gain (or timing)
field, so any state a successful construction returns has both unset; and
on a state whose cached gain is unset, _raw_lumi never returns a channel
pair and get_lumi never returns a lux value: with the four channel reads
succeeding, both fail with the AttributeError raised on access to the
never-assigned attribute. -/
theorem claim10_uninitialized_gain (hdl : I2CHandle) (addr : Nat)
    (bus : I2CBus) (st : TSL2561) (pw : ℚ → ℚ → ℚ) :
    (∀ st0, (tsl2561_init hdl addr).1 = .ok st0 →
      st0.gain = none ∧ st0.timing = none) ∧
    (st.gain = none →
      (∀ p, (_raw_lumi bus st).1 ≠ .ok p) ∧
      (∀ q, (get_lumi pw bus st).1 ≠ .ok q) ∧
      (bus.sendOK [0x8C] = true → bus.sendOK [0x8D] = true →
       bus.sendOK [0x8E] = true → bus.sendOK [0x8F] = true →
        (_raw_lumi bus st).1 = .error .attributeError ∧
        (get_lumi pw bus st).1 = .error .attributeError)) := by
  constructor
  · intro st0 h
    cases hdl with
    | noHandle => simp [tsl2561_init] at h
    | wrongType => simp [tsl2561_init] at h
    | i2c bus2 =>
      by_cases hr : bus2.isReady addr
      · rcases hsp1 : set_power_up bus2
            { addr := addr, gain := none, timing := none } true with ⟨r1, st1, tr1⟩
        have hst1 : st1 = { addr := addr, gain := none, timing := none } := by
          have hfr := set_power_up_state bus2
            { addr := addr, gain := none, timing := none } true
          rw [hsp1] at hfr
          exact hfr
        simp only [tsl2561_init, hr, if_true] at h
        rw [hsp1] at h
        cases r1 with
        | error e => simp at h
        | ok u =>
          simp only at h
          rcases hsp2 : set_power_up bus2 st1 false with ⟨r2, st2, tr2⟩
          have hst2 : st2 = st1 := by
            have hfr := set_power_up_state bus2 st1 false
            rw [hsp2] at hfr
            exact hfr
          rw [hsp2] at h
          cases r2 with
          | error e => simp at h
          | ok u2 =>
            simp only [Except.ok.injEq] at h
            rw [← h, hst2, hst1]
            exact ⟨rfl, rfl⟩
      · simp [tsl2561_init, hr] at h
  · intro hgain
    have hraw : ∀ p, (_raw_lumi bus st).1 ≠ Except.ok p := by
      intro p
      simp only [_raw_lumi, hgain]
      split_ifs <;> simp
    refine ⟨hraw, fun q => ?_, fun hs1 hs2 hs3 hs4 => ?_⟩
    · unfold get_lumi
      rcases hrl : _raw_lumi bus st with ⟨r, st1, tr⟩
      cases r with
      | error e => simp
      | ok p =>
        have hok : (_raw_lumi bus st).1 = Except.ok p := by rw [hrl]
        exact absurd hok (hraw p)
    · have hfst : (_raw_lumi bus st).1 = .error .attributeError := by
        simp [_raw_lumi, hs1, hs2, hs3, hs4, hgain]
      refine ⟨hfst, ?_⟩
      unfold get_lumi
      rcases hrl : _raw_lumi bus st with ⟨r, st1, tr⟩
      rw [hrl] at hfst
      simp only at hfst
      subst hfst
      rfl

/-- Witness for claim C10: on a fully functional bus, reading raw or
computed luminosity from the state a fresh construction returns fails with
AttributeError. -/
theorem claim10_uninitialized_gain_witness :
    (_raw_lumi busNoAck stNone).1 = .error .attributeError ∧
    (get_lumi (fun _ _ => (0 : ℚ)) busNoAck stNone).1 =
      .error .attributeError :=
  ((claim10_uninitialized_gain .noHandle 0x39 busNoAck stNone
      (fun _ _ => (0 : ℚ))).2 rfl).2.2 rfl rfl rfl rfl

/-- Claim C1: for channel values with channel0 > 0 and channel1 > 0 the
luminosity computation forms the ratio c = channel1 / channel0 and selects
the lux formula by inclusive upper bounds: c ≤ 0.5 yields
0.0304*ch0 - 0.062*ch0*pow(c, 1.4); 0.5 < c ≤ 0.61 yields
0.0224*ch0 - 0.031*ch1; 0.61 < c ≤ 0.8 yields 0.0128*ch0 - 0.0153*ch1;
0.8 < c ≤ 1.3 yields 0.00146*ch0 - 0.00112*ch1; accordingly the ratios
exactly 0.5, 0.61, 0.8, 1.3 fall in the first, second, third and fourth
branches respectively. -/
theorem claim1_branch_selection (pw : ℚ → ℚ → ℚ) (r0 r1 : Nat)
    (h0 : 0 < r0) (h1 : 0 < r1) :
    ((r1 : ℚ) / (r0 : ℚ) ≤ 0.5 →
      lumi_calc pw r0 r1 =
        0.0304 * (r0 : ℚ) - 0.062 * (r0 : ℚ) * pw ((r1 : ℚ) / (r0 : ℚ)) 1.4) ∧
    (0.5 < (r1 : ℚ) / (r0 : ℚ) → (r1 : ℚ) / (r0 : ℚ) ≤ 0.61 →
      lumi_calc pw r0 r1 = 0.0224 * (r0 : ℚ) - 0.031 * (r1 : ℚ)) ∧
    (0.61 < (r1 : ℚ) / (r0 : ℚ) → (r1 : ℚ) / (r0 : ℚ) ≤ 0.8 →
      lumi_calc pw r0 r1 = 0.0128 * (r0 : ℚ) - 0.0153 * (r1 : ℚ)) ∧
    (0.8 < (r1 : ℚ) / (r0 : ℚ) → (r1 : ℚ) / (r0 : ℚ) ≤ 1.3 →
      lumi_calc pw r0 r1 = 0.00146 * (r0 : ℚ) - 0.00112 * (r1 : ℚ)) ∧
    (lumi_branch 2 1 = 1 ∧ lumi_branch 100 61 = 2 ∧
     lumi_branch 10 8 = 3 ∧ lumi_branch 10 13 = 4) := by
  have h0q : (0 : ℚ) < (r0 : ℚ) := by exact_mod_cast h0
  have h1q : (0 : ℚ) < (r1 : ℚ) := by exact_mod_cast h1
  have hc : (0 : ℚ) < (r1 : ℚ) / (r0 : ℚ) := div_pos h1q h0q
  have hne : r0 ≠ 0 := Nat.pos_iff_ne_zero.mp h0
  refine ⟨fun ha => ?_, fun ha hb => ?_, fun ha hb => ?_, fun ha hb => ?_,
    by norm_num [lumi_branch], by norm_num [lumi_branch],
    by norm_num [lumi_branch], by norm_num [lumi_branch]⟩
  · simp only [lumi_calc, if_pos hne]
    rw [if_pos hc, if_pos ha]
  · simp only [lumi_calc, if_pos hne]
    rw [if_pos hc, if_neg (not_le.mpr ha), if_pos hb]
  · simp only [lumi_calc, if_pos hne]
    rw [if_pos hc, if_neg (not_le.mpr (lt_trans (by norm_num) ha)),
      if_neg (not_le.mpr ha), if_pos hb]
  · simp only [lumi_calc, if_pos hne]
    rw [if_pos hc, if_neg (not_le.mpr (lt_trans (by norm_num) ha)),
      if_neg (not_le.mpr (lt_trans (by norm_num) ha)),
      if_neg (not_le.mpr ha), if_pos hb]

/-- Witness for claim C1: channels (100, 50) give ratio exactly 0.5, the
first branch applies, and with pow modelled as the constant 0 the result is
0.0304 * 100 = 3.04. -/
theorem claim1_branch_selection_witness :
    lumi_calc (fun _ _ => (0 : ℚ)) 100 50 = 3.04 := by
  have h := (claim1_branch_selection (fun _ _ => (0 : ℚ)) 100 50
    (by norm_num) (by norm_num)).1 (by norm_num)
  rw [h]
  norm_num

/-- Claim C6: the luminosity computation takes the sentinel path, returning
0 without failing, exactly when channel0 is 0 (regardless of channel1),
when the ratio channel1/channel0 exceeds 1.3, or when the ratio is 0, i.e.
channel1 is 0; and on that path the result is the sentinel 0. -/
theorem claim6_sentinel_cases (pw : ℚ → ℚ → ℚ) (r0 r1 : Nat) :
    (lumi_branch r0 r1 = 0 ↔
      (r0 = 0 ∨ r1 = 0 ∨ (1.3 : ℚ) < (r1 : ℚ) / (r0 : ℚ))) ∧
    (lumi_branch r0 r1 = 0 → lumi_calc pw r0 r1 = 0) := by
  by_cases hz : r0 = 0
  · subst hz
    constructor
    · exact ⟨fun _ => Or.inl rfl, fun _ => by simp [lumi_branch]⟩
    · intro _
      simp [lumi_calc]
  · have h0q : (0 : ℚ) < (r0 : ℚ) := by
      exact_mod_cast Nat.pos_of_ne_zero hz
    by_cases hz1 : r1 = 0
    · subst hz1
      have hc0 : ((0 : Nat) : ℚ) / (r0 : ℚ) = 0 := by simp
      constructor
      · constructor
        · intro _
          exact Or.inr (Or.inl rfl)
        · intro _
          simp only [lumi_branch, if_pos hz]
          rw [if_neg]
          rw [hc0]
          exact lt_irrefl 0
      · intro _
        simp only [lumi_calc, if_pos hz]
        rw [if_neg]
        rw [hc0]
        exact lt_irrefl 0
    · have h1q : (0 : ℚ) < (r1 : ℚ) := by
        exact_mod_cast Nat.pos_of_ne_zero hz1
      have hc : (0 : ℚ) < (r1 : ℚ) / (r0 : ℚ) := div_pos h1q h0q
      have hiff : lumi_branch r0 r1 = 0 ↔
          (r0 = 0 ∨ r1 = 0 ∨ (1.3 : ℚ) < (r1 : ℚ) / (r0 : ℚ)) := by
        simp only [lumi_branch, if_pos hz]
        rw [if_pos hc]
        split_ifs with ha hb hcc hd
        · constructor
          · intro h10
            exact absurd h10 (by norm_num)
          · intro hor
            rcases hor with h | h | h
            · exact absurd h hz
            · exact absurd h hz1
            · exact absurd (le_trans h.le ha) (by norm_num)
        · constructor
          · intro h10
            exact absurd h10 (by norm_num)
          · intro hor
            rcases hor with h | h | h
            · exact absurd h hz
            · exact absurd h hz1
            · exact absurd (le_trans h.le hb) (by norm_num)
        · constructor
          · intro h10
            exact absurd h10 (by norm_num)
          · intro hor
            rcases hor with h | h | h
            · exact absurd h hz
            · exact absurd h hz1
            · exact absurd (le_trans h.le hcc) (by norm_num)
        · constructor
          · intro h10
            exact absurd h10 (by norm_num)
          · intro hor
            rcases hor with h | h | h
            · exact absurd h hz
            · exact absurd h hz1
            · exact absurd hd (not_le.mpr h)
        · exact ⟨fun _ => Or.inr (Or.inr (not_le.mp hd)), fun _ => rfl⟩
      refine ⟨hiff, fun hb0 => ?_⟩
      have h13 := ((hiff.mp hb0).resolve_left hz).resolve_left hz1
      simp only [lumi_calc, if_pos hz]
      rw [if_pos hc, if_neg (not_le.mpr (lt_trans (by norm_num) h13)),
        if_neg (not_le.mpr (lt_trans (by norm_num) h13)),
        if_neg (not_le.mpr (lt_trans (by norm_num) h13)),
        if_neg (not_le.mpr h13)]

/-- Witness for claim C6: channel0 = 0 is a sentinel case, and the result
there is 0. -/
theorem claim6_sentinel_cases_witness :
    lumi_branch 0 5 = 0 ∧ lumi_calc (fun _ _ => (0 : ℚ)) 0 5 = 0 := by
  have h := claim6_sentinel_cases (fun _ _ => (0 : ℚ)) 0 5
  exact ⟨h.1.mpr (Or.inl rfl), h.2 (h.1.mpr (Or.inl rfl))⟩
